import Mathlib

/-!
Shallow embedding of the request-authentication, quota-enforcement and
usage-metering pipeline of the Optimo manager backend (`src/vto.py`,
`src/constants.py`, `src/models.py`, and the `log_api_usage` middleware of
`src/main.py`).

Modelling conventions:
* Database tables are lists of rows; SQLAlchemy `.first()` is the first
  matching element of the list; `.count()` is the length of the filter.
* `datetime.utcnow()` is a single per-request instant `now : Int`, measured
  in hours (the only time arithmetic in the source is `timedelta(hours=24)`).
* `raise HTTPException` is an `Except.error` carrying status and detail;
  handlers return the final database together with the result, since commits
  performed before an exception persist.
* The outbound HTTP call to the VTO service is a parameter describing the
  upstream outcome (success payload, connection error, timeout, bad status).
* A possible persistence failure while inserting a usage/session row is a
  boolean parameter: `true` means `db.add`/`db.commit` raised, in which case
  the source rolls back, leaving the database unchanged.
-/

namespace VTO

/-! ## Constants (src/vto.py lines 44-50, src/constants.py) -/

def SUPER_ADMIN_API_KEY : String := "OptimoSight987654321"

def GUEST_API_KEY : String := "OptimosightGuest999"

def GUEST_LIMIT : Nat := 2000

def RESET_PERIOD_HOURS : Int := 24

def VALID_CATEGORIES : List String :=
  ["lipstick", "eyeshadow", "eyeliner", "foundation", "contour", "concealer", "blush"]

def VTO_ENDPOINTS : List String :=
  [ "/api/vto/upload",
    "/api/vto/apply_eyeshadow",
    "/api/vto/apply_lipstick",
    "/api/vto/apply_blush",
    "/api/vto/apply_eyeliner",
    "/api/vto/apply_foundation",
    "/api/vto/apply_contour",
    "/api/vto/apply_concealer",
    "/api/vto/live_makeup",
    "/api/vto/live_makeup_page/lipstick",
    "/api/vto/live_makeup_page/blush",
    "/api/vto/live_makeup_page/eyeshadow",
    "/api/vto/live_makeup_page/eyeliner",
    "/api/vto/live_makeup_page/foundation",
    "/api/vto/live_makeup_page/contour",
    "/api/vto/live_makeup_page/concealer",
    "/api/vto/track_color_update",
    "/api/vto/track_makeup_application" ]

/-! ## Rows (src/models.py) -/

structure Subscription where
  id : Nat
  api_limit : Nat
deriving DecidableEq

structure Organization where
  id : Nat
  name : String
  subscription_id : Option Nat
  services : List String
deriving DecidableEq

structure ApiKey where
  id : Nat
  organization_id : Nat
  api_key : String
  is_active : Bool
deriving DecidableEq

/-- The JSON `request_data` payload stored on a Usage Event row: the
handler rows carry the form fields, the middleware rows carry only the
request method. -/
structure RequestData where
  filename : Option String
  color : Option String
  category : Option String
  product_name : Option String
  org_id : Option Nat
  method : Option String := none
deriving DecidableEq

structure UsageLog where
  organization_id : Option Nat
  api_key_id : Option Nat
  endpoint : String
  request_data : RequestData
  response_status : Nat
  processing_time_ms : Nat
deriving DecidableEq

structure UserRow where
  id : Nat
  org_id : Option Nat
  is_active : Bool
deriving DecidableEq

structure TryonSession where
  user_id : Nat
  organization_id : Option Nat
  image_url : Option String
  duration_seconds : Nat
  device_type : String
  country : Option String
  product_name : String
  category : String
  converted : Bool
deriving DecidableEq

structure GuestUsage where
  fingerprint_hash : String
  ip_address : String
  user_agent_hash : String
  usage_count : Nat
  last_visit : Int
deriving DecidableEq

structure DB where
  organizations : List Organization
  apiKeys : List ApiKey
  subscriptions : List Subscription
  usageLogs : List UsageLog
  tryonSessions : List TryonSession
  users : List UserRow
  guestUsages : List GuestUsage
deriving DecidableEq

/-! ## Errors and auth results -/

/-- The `detail` payload of an `HTTPException`: either a plain string or the
structured guest-quota dictionary of src/vto.py lines 148-153. -/
inductive Detail where
  | str (msg : String)
  | guestQuota (message : String) (usage_count : Nat) (limit : Nat) (reset_time : Int)
deriving DecidableEq

structure HTTPError where
  status : Nat
  detail : Detail
deriving DecidableEq

/-- Does a 429 detail carry the structured `usage_count`/`limit`/`reset_time`
body required by the spec for quota-exceeded responses? -/
def Detail.hasQuotaFields : Detail → Bool
  | .guestQuota _ _ _ _ => true
  | .str _ => false

/-- The ad-hoc auth object returned by `get_api_key` (src/vto.py lines
156-192): the fields every consumer reads.  `guest_idx` stands for the
`guest_usage` attribute, as the position of the resolved guest record. -/
structure AuthInfo where
  api_key : String
  organization_id : Option Nat
  id : Option Nat
  is_super_admin : Bool
  is_guest : Bool
  guest_idx : Option Nat
deriving DecidableEq

/-- The output of `generate_fingerprint` (src/vto.py lines 53-74): the
fingerprint hash, the resolved client IP and the user-agent hash.  The SHA-256
digests themselves are opaque data here. -/
structure GuestRequestMeta where
  fingerprint_hash : String
  client_ip : String
  user_agent_hash : String
deriving DecidableEq

/-! ## List and string helpers -/

/-- Find the first element satisfying `p` together with its position
(SQLAlchemy `.first()` on a filtered table, keeping the row address so later
mutations of the ORM object can be modelled as `List.set`). -/
def findWithIdx (p : GuestUsage → Bool) : List GuestUsage → Option (Nat × GuestUsage)
  | [] => none
  | g :: gs =>
    if p g then some (0, g)
    else (findWithIdx p gs).map (fun r => (r.1 + 1, r.2))

/-- `isPrefixList p s` holds when the character list `p` is an initial
segment of `s`. -/
def isPrefixList : List Char → List Char → Bool
  | [], _ => true
  | _ :: _, [] => false
  | a :: as, b :: bs => a == b && isPrefixList as bs

/-- `containsList p s`: the character list `p` occurs contiguously in `s`
(Python `p in s`). -/
def containsList (p : List Char) : List Char → Bool
  | [] => isPrefixList p []
  | c :: rest => isPrefixList p (c :: rest) || containsList p rest

/-- Python `pat in s` on strings. -/
def strContains (s pat : String) : Bool :=
  containsList pat.data s.data

/-- Python `s.startswith(pat)`. -/
def strStartsWith (s pat : String) : Bool :=
  isPrefixList pat.data s.data

/-- Replace every (non-overlapping, left-to-right) occurrence of `pat` by
`rep`, on character lists.  The fuel argument only bounds the recursion
(each step consumes at least one character, so `s.length` fuel is enough);
it keeps the definition structurally recursive. -/
def replaceList (pat rep : List Char) : Nat → List Char → List Char
  | _, [] => []
  | 0, s => s
  | fuel + 1, c :: rest =>
    if 0 < pat.length ∧ isPrefixList pat (c :: rest) = true then
      rep ++ replaceList pat rep fuel ((c :: rest).drop pat.length)
    else
      c :: replaceList pat rep fuel rest

/-- Python `s.replace(pat, rep)`. -/
def strReplace (s pat rep : String) : String :=
  ⟨replaceList pat.data rep.data s.data.length s.data⟩

/-- Python `s.lower()`. -/
def strLower (s : String) : String :=
  ⟨s.data.map Char.toLower⟩

/-- Python `s.capitalize()` as used on category names: upper-case the first
character. -/
def strCapitalize (s : String) : String :=
  match s.data with
  | [] => ⟨[]⟩
  | c :: rest => ⟨c.toUpper :: rest⟩

/-! ## Guest fingerprint tracker (src/vto.py lines 76-106) -/

/-- `get_or_create_guest_usage`: resolve the guest record by fingerprint
hash, falling back to the same IP within the reset window; create it with
`usage_count = 0` when neither matches; on a match refresh
`fingerprint_hash`, `user_agent_hash` and `last_visit`.  Returns the updated
database, the resolved record and its position. -/
def get_or_create_guest_usage (req : GuestRequestMeta) (now : Int) (db : DB) :
    DB × GuestUsage × Nat :=
  let found :=
    match findWithIdx (fun g => g.fingerprint_hash == req.fingerprint_hash) db.guestUsages with
    | some r => some r
    | none =>
      findWithIdx
        (fun g => g.ip_address == req.client_ip &&
          decide (g.last_visit > now - RESET_PERIOD_HOURS))
        db.guestUsages
  match found with
  | none =>
    let g : GuestUsage :=
      { fingerprint_hash := req.fingerprint_hash
        ip_address := req.client_ip
        user_agent_hash := req.user_agent_hash
        usage_count := 0
        last_visit := now }
    ({ db with guestUsages := db.guestUsages ++ [g] }, g, db.guestUsages.length)
  | some (i, g) =>
    let g1 := { g with
      fingerprint_hash := req.fingerprint_hash
      user_agent_hash := req.user_agent_hash
      last_visit := now }
    ({ db with guestUsages := db.guestUsages.set i g1 }, g1, i)

/-! ## Identity resolver (src/vto.py lines 121-192) -/

/-- `api_key = x_api_key or request.query_params.get("api_key")`, then
`if not api_key` — Python treats the empty string as missing. -/
def firstCredential (x_api_key query_api_key : Option String) : Option String :=
  let k? :=
    match x_api_key with
    | some k => if k.isEmpty then query_api_key else some k
    | none => query_api_key
  match k? with
  | some k => if k.isEmpty then none else some k
  | none => none

/-- `get_api_key`: classify the credential as guest / super-admin /
organization key, enforcing the guest pre-check quota. -/
def get_api_key (x_api_key query_api_key : Option String) (req : GuestRequestMeta)
    (now : Int) (db : DB) : DB × Except HTTPError AuthInfo :=
  match firstCredential x_api_key query_api_key with
  | none => (db, .error ⟨401, .str "API key required"⟩)
  | some api_key =>
    if api_key == GUEST_API_KEY then
      let (db1, g, i) := get_or_create_guest_usage req now db
      if g.usage_count ≥ GUEST_LIMIT then
        if g.last_visit < now - RESET_PERIOD_HOURS then
          let g0 := { g with usage_count := 0, last_visit := now }
          ({ db1 with guestUsages := db1.guestUsages.set i g0 },
           .ok { api_key := api_key, organization_id := none, id := none,
                 is_super_admin := false, is_guest := true, guest_idx := some i })
        else
          (db1, .error ⟨429,
            .guestQuota "Guest usage limit reached. Please subscribe to continue."
              g.usage_count GUEST_LIMIT (g.last_visit + RESET_PERIOD_HOURS)⟩)
      else
        (db1, .ok { api_key := api_key, organization_id := none, id := none,
                    is_super_admin := false, is_guest := true, guest_idx := some i })
    else if api_key == SUPER_ADMIN_API_KEY then
      match db.organizations.head? with
      | none => (db, .error ⟨404, .str "No organizations found"⟩)
      | some first_org =>
        (db, .ok { api_key := api_key, organization_id := some first_org.id, id := none,
                   is_super_admin := true, is_guest := false, guest_idx := none })
    else
      match db.apiKeys.find? (fun k => k.api_key == api_key && k.is_active) with
      | none => (db, .error ⟨401, .str "Invalid or inactive API key"⟩)
      | some key =>
        match db.organizations.find? (fun o => o.id == key.organization_id) with
        | none => (db, .error ⟨401, .str "Invalid organization"⟩)
        | some _ =>
          (db, .ok { api_key := api_key, organization_id := some key.organization_id,
                     id := some key.id, is_super_admin := false, is_guest := false,
                     guest_idx := none })

/-- `increment_guest_usage_if_needed` (src/vto.py lines 194-210): bump the
guest counter and report whether the limit is reached after the increment. -/
def increment_guest_usage_if_needed (auth : AuthInfo) (now : Int) (db : DB) : DB × Bool :=
  if auth.is_guest then
    match auth.guest_idx with
    | some i =>
      match db.guestUsages[i]? with
      | some g =>
        let g1 := { g with usage_count := g.usage_count + 1, last_visit := now }
        ({ db with guestUsages := db.guestUsages.set i g1 },
         decide (g1.usage_count ≥ GUEST_LIMIT))
      | none => (db, false)
    | none => (db, false)
  else (db, false)

/-! ## Quota enforcer (src/vto.py lines 321-335) -/

/-- `db.query(UsageLog).filter(UsageLog.organization_id == org_id).count()`. -/
def usageCountFor (db : DB) (org_id : Option Nat) : Nat :=
  (db.usageLogs.filter (fun u => u.organization_id == org_id)).length

/-- `check_access`: skip for super-admin/guest; fail 403 when the
organization is missing or lacks the required service; fail 429 when the
historical usage count reaches the limit. -/
def check_access (db : DB) (org_id : Option Nat) (api_limit : Nat)
    (required_service : String) (is_super_admin is_guest : Bool) :
    Except HTTPError Unit :=
  if is_super_admin || is_guest then .ok ()
  else
    match db.organizations.find? (fun o => some o.id == org_id) with
    | none => .error ⟨403, .str "Organization not found"⟩
    | some org =>
      if required_service ∉ org.services then
        .error ⟨403, .str ("Organization not subscribed to " ++ required_service ++ " service")⟩
      else if usageCountFor db org_id ≥ api_limit then
        .error ⟨429, .str "API rate limit exceeded"⟩
      else
        .ok ()

/-- The subscription join of the handlers:
`db.query(Subscription).join(Organization, Organization.subscription_id ==
Subscription.id).filter(Organization.id == org_id).first()` — organization
ids are primary keys, so this is the subscription plan attached to the
caller's organization, when any. -/
def findSubscription (db : DB) (org_id : Option Nat) : Option Subscription :=
  match db.organizations.find? (fun o => some o.id == org_id) with
  | none => none
  | some org =>
    match org.subscription_id with
    | none => none
    | some sid => db.subscriptions.find? (fun s => s.id == sid)

/-! ## Usage recorder (src/vto.py lines 212-319) -/

/-- `log_usage`: skip for super-admin/guest, skip endpoints outside
`VTO_ENDPOINTS`, otherwise append one usage row; a persistence failure is
caught and rolled back. -/
def log_usage (db : DB) (endpoint : String) (organization_id : Option Nat)
    (api_key_id : Option Nat) (response_status : Nat) (request_data : RequestData)
    (processing_time_ms : Nat) (is_super_admin is_guest : Bool)
    (persistFail : Bool) : DB :=
  if is_super_admin || is_guest then db
  else if endpoint ∉ VTO_ENDPOINTS then db
  else if persistFail then db
  else
    { db with usageLogs := db.usageLogs ++
        [{ organization_id := organization_id
           api_key_id := api_key_id
           endpoint := endpoint
           request_data := request_data
           response_status := response_status
           processing_time_ms := processing_time_ms }] }

/-- The per-endpoint `product_name` synthesis of `log_tryon_session`
(src/vto.py lines 274-293). -/
def tryonProductName (endpoint : String) (rd : RequestData) : String :=
  let product_name := rd.product_name.getD "Virtual Try-On"
  if strStartsWith endpoint "/api/vto/live_makeup_page/" then
    let ecat := strReplace endpoint "/api/vto/live_makeup_page/" ""
    "Live " ++ strCapitalize ecat ++ " - " ++ rd.color.getD "Unknown"
  else if strStartsWith endpoint "/api/vto/apply_" then
    let ecat := strReplace endpoint "/api/vto/apply_" ""
    rd.product_name.getD (strCapitalize ecat) ++ " " ++ rd.color.getD "Unknown"
  else if endpoint == "/api/vto/upload" then
    "Image Upload"
  else if endpoint == "/api/vto/live_makeup" then
    "Live Makeup " ++ rd.color.getD "Unknown"
  else if endpoint == "/api/vto/live_makeup_apply" then
    rd.category.getD "Makeup" ++ " - " ++ rd.color.getD "Unknown"
  else if endpoint == "/api/vto/track_color_update" then
    "Color Update: " ++ rd.category.getD "Makeup" ++ " - " ++ rd.color.getD "Unknown"
  else if endpoint == "/api/vto/track_makeup_application" then
    "Makeup Try-On: " ++ rd.category.getD "Makeup" ++ " - " ++ rd.color.getD "Unknown"
  else product_name

/-- `log_tryon_session`: skip for super-admin/guest; skip when the
organization has no active user; otherwise append one session row with the
synthesized product name and device classification; a persistence failure is
caught and rolled back.  Note there is no `VTO_ENDPOINTS` filter here. -/
def log_tryon_session (db : DB) (organization_id : Option Nat) (rd : RequestData)
    (processing_time_ms : Nat) (endpoint : String) (userAgent : String)
    (geoCountry : Option String) (api_key_id : Option Nat)
    (is_super_admin is_guest : Bool) (persistFail : Bool) : DB :=
  if is_super_admin || is_guest then db
  else
    match db.users.find? (fun u => u.org_id == organization_id && u.is_active) with
    | none => db
    | some user =>
      if persistFail then db
      else
        let duration_seconds :=
          if processing_time_ms / 1000 == 0 then 1 else processing_time_ms / 1000
        let ua := strLower userAgent
        let device_type :=
          if strContains ua "mobile" || strContains ua "android" || strContains ua "iphone"
          then "mobile" else "desktop"
        { db with tryonSessions := db.tryonSessions ++
            [{ user_id := user.id
               organization_id := organization_id
               image_url := rd.filename
               duration_seconds := duration_seconds
               device_type := device_type
               country := geoCountry
               product_name := tryonProductName endpoint rd
               category := rd.category.getD "makeup"
               converted := false }] }

/-! ## Endpoint handlers -/

/-- Outcome of the outbound call made by `vto_upload` (src/vto.py lines
522-564): success carries the optional processed-image field extracted from
the JSON response; the error constructors match the caught exception
classes and the non-200 branch. -/
inductive UploadProxyOutcome where
  | success (processed_image : Option String)
  | connectError
  | timeoutError
  | otherError (msg : String)
  | badStatus (code : Nat) (text : String)
deriving DecidableEq

structure UploadOk where
  processed_image : String
deriving DecidableEq

/-- `vto_upload` (src/vto.py lines 448-577): resolve identity, validate the
category, enforce the guest post-increment limit, run the subscription
quota check when a plan is attached, record usage and session rows, then
proxy the image.  Note the recording happens before the proxy call. -/
def vto_upload (x_api_key query_api_key : Option String) (req : GuestRequestMeta)
    (now : Int) (filename : String) (org_id : Option Nat) (category : String)
    (userAgent : String) (geoCountry : Option String)
    (proxy : UploadProxyOutcome) (processing_time_ms : Nat)
    (usageFail sessionFail : Bool) (db : DB) : DB × Except HTTPError UploadOk :=
  match get_api_key x_api_key query_api_key req now db with
  | (db, .error e) => (db, .error e)
  | (db, .ok auth) =>
    let is_super := auth.is_super_admin
    let is_guest := auth.is_guest
    if category ∉ VALID_CATEGORIES then
      (db, .error ⟨400, .str "Invalid category"⟩)
    else
      let incr := if is_guest then increment_guest_usage_if_needed auth now db else (db, false)
      let db := incr.1
      if incr.2 then
        (db, .error ⟨429, .str "Guest usage limit reached. Please subscribe to continue."⟩)
      else
        let access : Except HTTPError Unit :=
          if !is_super && !is_guest then
            match findSubscription db auth.organization_id with
            | some subscription =>
              check_access db auth.organization_id subscription.api_limit "vto_makeup"
                is_super is_guest
            | none => .ok ()
          else .ok ()
        match access with
        | .error e => (db, .error e)
        | .ok _ =>
          let rd : RequestData :=
            { filename := some filename, color := none, category := some category,
              product_name := none, org_id := org_id }
          let db := log_usage db "/api/vto/upload" auth.organization_id auth.id 200
            rd processing_time_ms is_super is_guest usageFail
          let db := log_tryon_session db auth.organization_id rd processing_time_ms
            "/api/vto/upload" userAgent geoCountry auth.id is_super is_guest sessionFail
          match proxy with
          | .connectError =>
            (db, .error ⟨503, .str "Virtual try-on service is not reachable. Please try again later."⟩)
          | .timeoutError =>
            (db, .error ⟨504, .str "Virtual try-on service timeout. Please try again."⟩)
          | .otherError msg =>
            (db, .error ⟨500, .str ("Connection to virtual try-on service failed: " ++ msg)⟩)
          | .badStatus code text =>
            (db, .error ⟨code, .str ("Virtual try-on service error: " ++ text)⟩)
          | .success none =>
            (db, .error ⟨500, .str "Could not find processed image in virtual try-on service response"⟩)
          | .success (some img) =>
            (db, .ok ⟨img⟩)

/-- Outcome of the outbound call made by `vto_apply_makeup` (src/vto.py
lines 622-629): success carries the optional `image_base64` field of the
JSON response. -/
inductive ApplyProxyOutcome where
  | success (image_base64 : Option String)
  | badStatus (code : Nat) (text : String)
deriving DecidableEq

/-- The streamed image returned by `vto_apply_makeup`; `content` is the
base64 payload after stripping an optional data-URI head (the actual
base64 decoding is opaque byte manipulation). -/
structure ImageResponse where
  content : String
deriving DecidableEq

/-- `vto_apply_makeup` (src/vto.py lines 580-641): resolve identity,
validate the category, enforce the guest post-increment limit, run the
subscription quota check when a plan is attached, proxy the image, and only
then record usage and session rows. -/
def vto_apply_makeup (category : String) (x_api_key query_api_key : Option String)
    (req : GuestRequestMeta) (now : Int) (filename : String) (color : String)
    (org_id : Option Nat) (product_name : String)
    (userAgent : String) (geoCountry : Option String)
    (proxy : ApplyProxyOutcome) (processing_time_ms : Nat)
    (usageFail sessionFail : Bool) (db : DB) : DB × Except HTTPError ImageResponse :=
  match get_api_key x_api_key query_api_key req now db with
  | (db, .error e) => (db, .error e)
  | (db, .ok auth) =>
    let is_super := auth.is_super_admin
    let is_guest := auth.is_guest
    if category ∉ VALID_CATEGORIES then
      (db, .error ⟨400, .str "Invalid makeup type"⟩)
    else
      let incr := if is_guest then increment_guest_usage_if_needed auth now db else (db, false)
      let db := incr.1
      if incr.2 then
        (db, .error ⟨429, .str "Guest usage limit reached. Please subscribe to continue."⟩)
      else
        let access : Except HTTPError Unit :=
          if !is_super && !is_guest then
            match findSubscription db auth.organization_id with
            | some subscription =>
              check_access db auth.organization_id subscription.api_limit "vto_makeup"
                is_super is_guest
            | none => .ok ()
          else .ok ()
        match access with
        | .error e => (db, .error e)
        | .ok _ =>
          match proxy with
          | .badStatus code text => (db, .error ⟨code, .str text⟩)
          | .success none => (db, .error ⟨500, .str "No image returned from service"⟩)
          | .success (some image_base64) =>
            let content :=
              if strStartsWith image_base64 "data:image" then
                ((image_base64.splitOn ",").drop 1).headD ""
              else image_base64
            let rd : RequestData :=
              { filename := some filename, color := some color, category := some category,
                product_name := some product_name, org_id := org_id }
            let endpoint := "/api/vto/apply_" ++ category
            let db := log_usage db endpoint auth.organization_id auth.id 200
              rd processing_time_ms is_super is_guest usageFail
            let db := log_tryon_session db auth.organization_id rd processing_time_ms
              endpoint userAgent geoCountry auth.id is_super is_guest sessionFail
            (db, .ok ⟨content⟩)

/-! ## The `log_api_usage` middleware (src/main.py lines 73-149)

The live application is `main:app`; besides the handlers above it runs an
HTTP middleware after every request which inserts a Usage Event row for
monitored VTO paths whose handler did not set `request.state.usage_logged`
(set by `log_usage` exactly when it committed a row, src/vto.py lines
244-245). -/

/-- The middleware's bearer-token attribution (src/main.py lines 87-93 and
117-119): the `Authorization` header is resolved through `get_current_user`
— JWT decoding by the credential service the spec treats as opaque — and
the user's role row is compared against `super_admin`.  The parameter
carries the resolved user's `org_id` and whether a role row was found whose
role is not `super_admin`; `none` when no valid user was resolved. -/
structure BearerInfo where
  org_id : Option Nat
  role_not_super_admin : Bool
deriving DecidableEq

/-- Python truthiness of the middleware's `organization_id` value
(`if not organization_id`, `if organization_id:`): `None` and `0` are
falsy. -/
def truthyOrg : Option Nat → Bool
  | some n => n != 0
  | none => false

/-- Lines 117-128: when the key-based attribution produced no (truthy)
organization and a bearer user with a non-super-admin role exists, attribute
the request to the user's organization — dropped again if that organization
no longer exists — and pick the organization's first active key id. -/
def mwBearerResolve (db : DB) (bearer : Option BearerInfo)
    (organization_id api_key_id : Option Nat) : Option Nat × Option Nat :=
  if truthyOrg organization_id then (organization_id, api_key_id)
  else
    match bearer with
    | none => (organization_id, api_key_id)
    | some bu =>
      if bu.role_not_super_admin then
        match bu.org_id with
        | some n =>
          if n != 0 then
            match db.organizations.find? (fun o => o.id == n) with
            | none => (none, api_key_id)
            | some _ =>
              (some n,
               (db.apiKeys.find? (fun kk => kk.organization_id == n && kk.is_active)).map
                 (fun kk => kk.id))
          else (some n, api_key_id)
        | none => (none, api_key_id)
      else (organization_id, api_key_id)

/-- Lines 130-145: insert one Usage Event row carrying the response status
when a (truthy) organization was attributed; a persistence error is caught
and rolled back. -/
def mwInsert (db : DB) (path : String) (organization_id api_key_id : Option Nat)
    (response_status processing_time : Nat) (method : String) (persistFail : Bool) : DB :=
  if truthyOrg organization_id then
    if persistFail then db
    else
      { db with usageLogs := db.usageLogs ++
          [{ organization_id := organization_id
             api_key_id := api_key_id
             endpoint := path
             request_data := { filename := none, color := none, category := none,
                               product_name := none, org_id := none, method := some method }
             response_status := response_status
             processing_time_ms := processing_time }] }
  else db

/-- `log_api_usage` (src/main.py lines 73-149): skip when the handler
already logged or the path is not monitored; skip the reserved guest and
super-admin keys; otherwise attribute through the `X-API-Key` header (an
active key) or the bearer user and insert one row with the response
status. -/
def log_api_usage (db : DB) (path : String) (x_api_key : Option String)
    (bearer : Option BearerInfo) (usage_logged : Bool) (response_status : Nat)
    (processing_time : Nat) (method : String) (persistFail : Bool) : DB :=
  if usage_logged then db
  else if path ∉ VTO_ENDPOINTS then db
  else
    match x_api_key with
    | some ks =>
      if ks.isEmpty then
        let r := mwBearerResolve db bearer none none
        mwInsert db path r.1 r.2 response_status processing_time method persistFail
      else if ks == GUEST_API_KEY then db
      else if ks == SUPER_ADMIN_API_KEY then db
      else
        let base : Option Nat × Option Nat :=
          match db.apiKeys.find? (fun kk => kk.api_key == ks && kk.is_active) with
          | some key => (some key.organization_id, some key.id)
          | none => (none, none)
        let r := mwBearerResolve db bearer base.1 base.2
        mwInsert db path r.1 r.2 response_status processing_time method persistFail
    | none =>
      let r := mwBearerResolve db bearer none none
      mwInsert db path r.1 r.2 response_status processing_time method persistFail

/-- `request.state.usage_logged` after the handler ran.  `log_usage` sets
the flag exactly when it committed a Usage Event row (src/vto.py lines
241-245, all handler call sites pass `request`), and nothing else in a
handler touches the Usage Event ledger, so the flag is set exactly when the
ledger grew (`log_usage_flag_iff` below proves this correspondence). -/
def usageLoggedAfter (before after : DB) : Bool :=
  after.usageLogs.length != before.usageLogs.length

/-- The HTTP status the middleware reads off the handler outcome: FastAPI
maps a raised `HTTPException` to a response with its status code, and both
handlers return 200 on success. -/
def responseStatus {α : Type} : Except HTTPError α → Nat
  | .ok _ => 200
  | .error e => e.status

/-- A full `POST /api/vto/upload` request through `main:app`: the
`vto_upload` handler (with its `get_api_key` dependency) followed by the
`log_api_usage` middleware. -/
def vto_upload_request (x_api_key query_api_key : Option String) (req : GuestRequestMeta)
    (now : Int) (filename : String) (org_id : Option Nat) (category : String)
    (userAgent : String) (geoCountry : Option String)
    (proxy : UploadProxyOutcome) (processing_time_ms : Nat) (usageFail sessionFail : Bool)
    (bearer : Option BearerInfo) (method : String) (mwProcessingTime : Nat) (mwFail : Bool)
    (db : DB) : DB × Except HTTPError UploadOk :=
  let h := vto_upload x_api_key query_api_key req now filename org_id category userAgent
    geoCountry proxy processing_time_ms usageFail sessionFail db
  (log_api_usage h.1 "/api/vto/upload" x_api_key bearer (usageLoggedAfter db h.1)
    (responseStatus h.2) mwProcessingTime method mwFail, h.2)

/-- A full `POST /api/vto/apply_{category}` request through `main:app`: the
`vto_apply_makeup` handler followed by the `log_api_usage` middleware. -/
def vto_apply_makeup_request (category : String) (x_api_key query_api_key : Option String)
    (req : GuestRequestMeta) (now : Int) (filename : String) (color : String)
    (org_id : Option Nat) (product_name : String)
    (userAgent : String) (geoCountry : Option String)
    (proxy : ApplyProxyOutcome) (processing_time_ms : Nat) (usageFail sessionFail : Bool)
    (bearer : Option BearerInfo) (method : String) (mwProcessingTime : Nat) (mwFail : Bool)
    (db : DB) : DB × Except HTTPError ImageResponse :=
  let h := vto_apply_makeup category x_api_key query_api_key req now filename color org_id
    product_name userAgent geoCountry proxy processing_time_ms usageFail sessionFail db
  (log_api_usage h.1 ("/api/vto/apply_" ++ category) x_api_key bearer
    (usageLoggedAfter db h.1) (responseStatus h.2) mwProcessingTime method mwFail, h.2)

/-! ## Concrete instances used by counterexamples and witnesses -/

def gmeta : GuestRequestMeta := ⟨"fp0", "1.2.3.4", "ua0"⟩

def emptyDb : DB := ⟨[], [], [], [], [], [], []⟩

def uploadRow : UsageLog :=
  { organization_id := some 1, api_key_id := some 1, endpoint := "/api/vto/upload",
    request_data := ⟨some "f.jpg", none, some "lipstick", none, none, none⟩,
    response_status := 200, processing_time_ms := 5 }

/-- Organization 1 holds subscription plan 1 (`api_limit = 3`), has an active
key, already has 3 usage rows — but its `services` list lacks `vto_makeup`. -/
def c1db : DB :=
  { organizations := [⟨1, "Acme", some 1, []⟩]
    apiKeys := [⟨1, 1, "orgkey-1", true⟩]
    subscriptions := [⟨1, 3⟩]
    usageLogs := [uploadRow, uploadRow, uploadRow]
    tryonSessions := []
    users := []
    guestUsages := [] }

/-- Same as `c1db` but the organization is subscribed to `vto_makeup`. -/
def c1wdb : DB :=
  { organizations := [⟨1, "Acme", some 1, ["vto_makeup"]⟩]
    apiKeys := [⟨1, 1, "orgkey-1", true⟩]
    subscriptions := [⟨1, 3⟩]
    usageLogs := [uploadRow, uploadRow, uploadRow]
    tryonSessions := []
    users := []
    guestUsages := [] }

/-- A guest record one call short of `GUEST_LIMIT`, seen just now. -/
def c2db : DB := ⟨[], [], [], [], [], [], [⟨"fp0", "1.2.3.4", "ua0", GUEST_LIMIT - 1, 100⟩]⟩

/-- A guest record at `GUEST_LIMIT` whose `last_visit` is 25 hours in the
past (the requests below arrive at `now = 25`). -/
def c3db : DB := ⟨[], [], [], [], [], [], [⟨"fp0", "1.2.3.4", "ua0", GUEST_LIMIT, 0⟩]⟩

/-- Organization 1 has no subscription plan attached, no `vto_makeup`
service tag, and already 5 usage rows. -/
def c4db : DB :=
  { organizations := [⟨1, "Acme", none, []⟩]
    apiKeys := [⟨1, 1, "orgkey-1", true⟩]
    subscriptions := []
    usageLogs := [uploadRow, uploadRow, uploadRow, uploadRow, uploadRow]
    tryonSessions := []
    users := []
    guestUsages := [] }

/-- Organization 1 with one active user, for session logging. -/
def c6db : DB := ⟨[⟨1, "Acme", none, []⟩], [], [], [], [], [⟨7, some 1, true⟩], []⟩

/-- Organization 1 with an active key and no subscription plan. -/
def c7db : DB :=
  { organizations := [⟨1, "Acme", none, ["vto_makeup"]⟩]
    apiKeys := [⟨1, 1, "orgkey-1", true⟩]
    subscriptions := []
    usageLogs := []
    tryonSessions := []
    users := []
    guestUsages := [] }

/-- A guest record exactly at `GUEST_LIMIT`, seen just now. -/
def c9db : DB := ⟨[], [], [], [], [], [], [⟨"fp0", "1.2.3.4", "ua0", GUEST_LIMIT, 100⟩]⟩

/-- Organization 1 subscribed to `vto_makeup` with `api_limit = 0`. -/
def c9odb : DB :=
  { organizations := [⟨1, "Acme", some 1, ["vto_makeup"]⟩]
    apiKeys := [⟨1, 1, "orgkey-1", true⟩]
    subscriptions := [⟨1, 0⟩]
    usageLogs := []
    tryonSessions := []
    users := []
    guestUsages := [] }

/-! ## Helper lemmas -/

theorem findWithIdx_spec (p : GuestUsage → Bool) :
    ∀ (l : List GuestUsage) (i : Nat) (g : GuestUsage),
    findWithIdx p l = some (i, g) → l[i]? = some g ∧ p g = true := by
  intro l
  induction l with
  | nil => intro i g h; simp [findWithIdx] at h
  | cons x xs ih =>
    intro i g h
    by_cases hp : p x
    · simp only [findWithIdx, if_pos hp] at h
      injection h with h2
      obtain ⟨h0, hx⟩ : 0 = i ∧ x = g := by simpa using h2
      subst h0; subst hx
      simp [hp]
    · simp only [findWithIdx, if_neg hp] at h
      cases hfx : findWithIdx p xs with
      | none => rw [hfx] at h; simp at h
      | some r =>
        rw [hfx] at h
        simp only [Option.map_some'] at h
        injection h with h2
        obtain ⟨h0, hx⟩ : r.1 + 1 = i ∧ r.2 = g := by simpa using h2
        subst h0; subst hx
        have hrec' := ih r.1 r.2 hfx
        exact ⟨by simpa using hrec'.1, hrec'.2⟩

/-- Resolving an active organization key whose credential is neither
reserved constant yields the organization-scoped auth object and leaves the
database unchanged. -/
theorem get_api_key_org (db : DB) (gm : GuestRequestMeta) (now : Int)
    (k : ApiKey) (org : Organization)
    (hne : k.api_key.isEmpty = false)
    (hg : (k.api_key == GUEST_API_KEY) = false)
    (hs : (k.api_key == SUPER_ADMIN_API_KEY) = false)
    (hfind : db.apiKeys.find? (fun kk => kk.api_key == k.api_key && kk.is_active) = some k)
    (horg : db.organizations.find? (fun o => o.id == k.organization_id) = some org) :
    get_api_key (some k.api_key) none gm now db =
      (db, .ok { api_key := k.api_key, organization_id := some k.organization_id,
                 id := some k.id, is_super_admin := false, is_guest := false,
                 guest_idx := none }) := by
  unfold get_api_key firstCredential
  simp [hne, hg, hs, hfind, horg]

theorem guest_key_not_empty : GUEST_API_KEY.isEmpty = false := rfl

theorem super_key_not_empty : SUPER_ADMIN_API_KEY.isEmpty = false := rfl

theorem findWithIdx_lt (p : GuestUsage → Bool) (l : List GuestUsage) (i : Nat)
    (g : GuestUsage) (h : findWithIdx p l = some (i, g)) : i < l.length :=
  ((List.getElem?_eq_some_iff).mp (findWithIdx_spec p l i g h).1).1

/-- Resolving the guest credential when the fingerprint matches a record
below the limit: the record is refreshed and guest auth is returned. -/
theorem get_api_key_guest_under (db : DB) (gm : GuestRequestMeta) (now : Int)
    (i : Nat) (g : GuestUsage)
    (hfp : findWithIdx (fun x => x.fingerprint_hash == gm.fingerprint_hash) db.guestUsages
      = some (i, g))
    (hlt : g.usage_count < GUEST_LIMIT) :
    get_api_key (some GUEST_API_KEY) none gm now db =
      ({ db with guestUsages := db.guestUsages.set i { g with fingerprint_hash := gm.fingerprint_hash, user_agent_hash := gm.user_agent_hash, last_visit := now } },
       .ok { api_key := GUEST_API_KEY, organization_id := none, id := none,
             is_super_admin := false, is_guest := true, guest_idx := some i }) := by
  unfold get_api_key firstCredential get_or_create_guest_usage
  simp [guest_key_not_empty, hfp, Nat.not_le.mpr hlt]

theorem guest_ne_super : (SUPER_ADMIN_API_KEY == GUEST_API_KEY) = false := by decide

/-- Resolving the reserved super-admin credential when at least one
organization exists: the first organization scopes the auth object and the
database is unchanged. -/
theorem get_api_key_super (db : DB) (gm : GuestRequestMeta) (now : Int) (org : Organization)
    (h : db.organizations.head? = some org) :
    get_api_key (some SUPER_ADMIN_API_KEY) none gm now db =
      (db, .ok { api_key := SUPER_ADMIN_API_KEY, organization_id := some org.id, id := none,
                 is_super_admin := true, is_guest := false, guest_idx := none }) := by
  unfold get_api_key firstCredential
  simp [super_key_not_empty, h, guest_ne_super]

/-- `log_tryon_session` never touches the Usage Event ledger. -/
theorem tryon_preserves_usageLogs (db : DB) (oid : Option Nat) (rd : RequestData)
    (pt : Nat) (endpoint ua : String) (geo : Option String) (aid : Option Nat)
    (is_super is_guest pf : Bool) :
    (log_tryon_session db oid rd pt endpoint ua geo aid is_super is_guest pf).usageLogs
      = db.usageLogs := by
  unfold log_tryon_session
  split
  · rfl
  · split
    · rfl
    · split <;> rfl

/-- Every valid category's `apply_` path belongs to the monitored endpoint
set. -/
theorem apply_path_monitored {category : String} (h : category ∈ VALID_CATEGORIES) :
    ("/api/vto/apply_" ++ category) ∈ VTO_ENDPOINTS := by
  fin_cases h <;> decide

/-- The flag encoding of `usageLoggedAfter` agrees with the source:
`log_usage` grows the ledger — and sets `request.state.usage_logged` —
exactly when it is not skipped for a privileged identity or an unmonitored
endpoint and the commit succeeds. -/
theorem log_usage_flag_iff (db : DB) (endpoint : String) (oid aid : Option Nat)
    (st : Nat) (rd : RequestData) (pt : Nat) (is_super is_guest pf : Bool) :
    usageLoggedAfter db (log_usage db endpoint oid aid st rd pt is_super is_guest pf) =
      (!(is_super || is_guest) && decide (endpoint ∈ VTO_ENDPOINTS) && !pf) := by
  unfold log_usage usageLoggedAfter
  cases is_super <;> cases is_guest <;> cases pf <;>
    by_cases hmem : endpoint ∈ VTO_ENDPOINTS <;> simp_all [bne_iff_ne]

/-- The middleware does nothing when the handler already logged. -/
theorem log_api_usage_skip_logged (db : DB) (path : String) (x : Option String)
    (b : Option BearerInfo) (st pt : Nat) (m : String) (pf : Bool) :
    log_api_usage db path x b true st pt m pf = db := by
  unfold log_api_usage
  simp

/-- When the handler did not log, the path is monitored and the `X-API-Key`
header holds an active organization key (neither reserved constant), the
middleware inserts exactly one usage row carrying the response status. -/
theorem log_api_usage_orgkey (db : DB) (path : String) (k : ApiKey)
    (bearer : Option BearerInfo) (st mwPt : Nat) (method : String)
    (hpath : path ∈ VTO_ENDPOINTS)
    (hne : k.api_key.isEmpty = false)
    (hg : (k.api_key == GUEST_API_KEY) = false)
    (hs : (k.api_key == SUPER_ADMIN_API_KEY) = false)
    (hfind : db.apiKeys.find? (fun kk => kk.api_key == k.api_key && kk.is_active) = some k)
    (hk0 : k.organization_id ≠ 0) :
    log_api_usage db path (some k.api_key) bearer false st mwPt method false =
      { db with usageLogs := db.usageLogs ++
          [⟨some k.organization_id, some k.id, path, ⟨none, none, none, none, none, some method⟩, st, mwPt⟩] } := by
  unfold log_api_usage mwBearerResolve mwInsert truthyOrg
  simp [hpath, hne, hg, hs, hfind, hk0]

/-! ## Counterexamples and code-behavior evaluations -/

/-- Claim C1 counterexample: organization 1 has a subscription plan attached
(`api_limit = 3`) and already 3 Usage Events, yet its next full
`apply_lipstick` request is rejected with 403 (missing `vto_makeup` service
capability, checked before the count), not with the claimed 429 — and,
contrary to the claim, a fourth Usage Event row (status 403) is inserted by
the `log_api_usage` middleware, because the rejected handler never set
`usage_logged`. -/
theorem c1_counterexample :
    vto_apply_makeup_request "lipstick" (some "orgkey-1") none gmeta 0 "f.jpg" "red" none
      "P" "ua" none (.success (some "img")) 5 false false none "POST" 7 false c1db =
    ({ c1db with usageLogs := c1db.usageLogs ++
        [⟨some 1, some 1, "/api/vto/apply_lipstick", ⟨none, none, none, none, none, some "POST"⟩, 403, 7⟩] },
     .error ⟨403, .str "Organization not subscribed to vto_makeup service"⟩) := rfl

/-- Claim C2 counterexample: a guest at `usage_count = GUEST_LIMIT - 1`
within the window calls `/upload`; the claim says this call succeeds, but
the code increments the counter to `GUEST_LIMIT` and rejects this very call
with 429. -/
theorem c2_counterexample :
    vto_upload (some GUEST_API_KEY) none gmeta 100 "f.jpg" none "lipstick" "ua" none
      (.success (some "img")) 5 false false c2db =
    ({ c2db with guestUsages := [⟨"fp0", "1.2.3.4", "ua0", GUEST_LIMIT, 100⟩] },
     .error ⟨429, .str "Guest usage limit reached. Please subscribe to continue."⟩) := rfl

/-- Claim C3, behavior of the code at the spec's own scenario: a guest
record with `usage_count = GUEST_LIMIT` and `last_visit` 25 hours in the
past is still rejected with 429 and its count is not reset, because
`get_or_create_guest_usage` refreshes `last_visit` to `now` before
`get_api_key` compares it with the reset window, making the reset branch
unreachable. -/
theorem c3_code_behavior :
    vto_upload (some GUEST_API_KEY) none gmeta 25 "f.jpg" none "lipstick" "ua" none
      (.success (some "img")) 5 false false c3db =
    ({ c3db with guestUsages := [⟨"fp0", "1.2.3.4", "ua0", GUEST_LIMIT, 25⟩] },
     .error ⟨429, .guestQuota "Guest usage limit reached. Please subscribe to continue."
        GUEST_LIMIT GUEST_LIMIT 49⟩) := rfl

/-- Claim C4 counterexample: organization 1 has no subscription plan
attached and is not even subscribed to the `vto_makeup` capability, yet the
call goes straight through to the proxy and succeeds — no fallback limit
and no capability check is applied. -/
theorem c4_counterexample :
    vto_apply_makeup "lipstick" (some "orgkey-1") none gmeta 0 "f.jpg" "red" none "P"
      "ua" none (.success (some "img")) 5 false false c4db =
    ({ c4db with usageLogs := c4db.usageLogs ++
        [⟨some 1, some 1, "/api/vto/apply_lipstick",
          ⟨some "f.jpg", some "red", some "lipstick", some "P", none, none⟩, 200, 5⟩] },
     .ok ⟨"img"⟩) := rfl

/-- Claim C6 counterexample: `/x` is outside the monitored endpoint set,
yet `log_tryon_session` (which never consults `VTO_ENDPOINTS`) still
inserts a Try-on Session row for it. -/
theorem c6_counterexample :
    "/x" ∉ VTO_ENDPOINTS ∧
    log_tryon_session c6db (some 1) ⟨some "f.jpg", none, none, some "P", none, none⟩ 1500 "/x"
      "ua" none (some 1) false false false =
    { c6db with tryonSessions :=
        [⟨7, some 1, some "f.jpg", 1, "desktop", none, "P", "makeup", false⟩] } :=
  ⟨by decide, rfl⟩

/-- Claim C7 counterexample: a failed outbound proxy call still leaves a
Usage Event row for the request.  For `/upload` the handler records the row
(status 200) before the proxy call and the request then fails with 503
(the middleware, seeing `usage_logged`, adds nothing); for
`apply_lipstick`, whose handler logs nothing on proxy failure, the
`log_api_usage` middleware inserts a row carrying the upstream failure
status 502. -/
theorem c7_counterexample :
    (vto_upload_request (some "orgkey-1") none gmeta 0 "f.jpg" none "lipstick" "ua" none
       .connectError 5 false false none "POST" 7 false c7db =
     ({ c7db with usageLogs :=
         [⟨some 1, some 1, "/api/vto/upload",
           ⟨some "f.jpg", none, some "lipstick", none, none, none⟩, 200, 5⟩] },
      .error ⟨503, .str "Virtual try-on service is not reachable. Please try again later."⟩)) ∧
    (vto_apply_makeup_request "lipstick" (some "orgkey-1") none gmeta 0 "f.jpg" "red" none
       "P" "ua" none (.badStatus 502 "bad gateway") 5 false false none "POST" 7 false c7db =
     ({ c7db with usageLogs :=
         [⟨some 1, some 1, "/api/vto/apply_lipstick",
           ⟨none, none, none, none, none, some "POST"⟩, 502, 7⟩] },
      .error ⟨502, .str "bad gateway"⟩)) := ⟨rfl, rfl⟩

/-- Claim C9 counterexample: the organization-quota rejection is a 429
whose detail is the plain string `API rate limit exceeded`, carrying none
of the claimed `usage_count`/`limit`/`reset_time` fields. -/
theorem c9_counterexample :
    (vto_apply_makeup "lipstick" (some "orgkey-1") none gmeta 0 "f.jpg" "red" none "P"
       "ua" none (.success (some "img")) 5 false false c9odb).2 =
      .error ⟨429, .str "API rate limit exceeded"⟩ ∧
    Detail.hasQuotaFields (.str "API rate limit exceeded") = false :=
  ⟨rfl, rfl⟩

/-- Claim C10 counterexample: with no organization rows, the reserved
super-admin credential does not resolve to `SuperAdmin`; identity
resolution fails with 404, a status outside the claimed
`Unauthenticated`/`InvalidCredential` taxonomy. -/
theorem c10_counterexample :
    get_api_key (some SUPER_ADMIN_API_KEY) none gmeta 0 emptyDb =
      (emptyDb, .error ⟨404, .str "No organizations found"⟩) := rfl

/-! ## Amended and confirmed claims -/

/-- Handler-level lemma: for an organization with a subscription plan
attached that is also subscribed to the `vto_makeup` service capability,
once the Usage Event count reaches the subscribed `api_limit` the
`vto_apply_makeup` handler raises 429 before any logging, leaving the
database unchanged. -/
theorem apply_quota_429_handler
    (db : DB) (gm : GuestRequestMeta) (now : Int) (k : ApiKey) (org : Organization)
    (sub : Subscription) (category filename color pname ua : String)
    (oid : Option Nat) (geo : Option String) (proxy : ApplyProxyOutcome)
    (pt : Nat) (uf sf : Bool)
    (hne : k.api_key.isEmpty = false)
    (hg : (k.api_key == GUEST_API_KEY) = false)
    (hs : (k.api_key == SUPER_ADMIN_API_KEY) = false)
    (hfind : db.apiKeys.find? (fun kk => kk.api_key == k.api_key && kk.is_active) = some k)
    (horg : db.organizations.find? (fun o => o.id == k.organization_id) = some org)
    (hsub : findSubscription db (some k.organization_id) = some sub)
    (hsvc : "vto_makeup" ∈ org.services)
    (hcat : category ∈ VALID_CATEGORIES)
    (hcount : usageCountFor db (some k.organization_id) ≥ sub.api_limit) :
    vto_apply_makeup category (some k.api_key) none gm now filename color oid pname ua geo
      proxy pt uf sf db =
    (db, .error ⟨429, .str "API rate limit exceeded"⟩) := by
  unfold vto_apply_makeup check_access
  rw [get_api_key_org db gm now k org hne hg hs hfind horg]
  simp [hcat, hsub, horg, hsvc, ge_iff_le, hcount]

/-- Claim C1 (amended): for an organization with a subscription plan
attached that is also subscribed to the `vto_makeup` service capability,
once the Usage Event count reaches the subscribed `api_limit` the next full
`OrganizationKey` request to `apply_{category}` through `main:app` is
rejected with 429; the handler inserts nothing, but the `log_api_usage`
middleware then inserts exactly one Usage Event row with response status
429 for the rejected call, since the handler never set `usage_logged`. -/
theorem c1_org_quota_429_with_service
    (db : DB) (gm : GuestRequestMeta) (now : Int) (k : ApiKey) (org : Organization)
    (sub : Subscription) (category filename color pname ua method : String)
    (oid : Option Nat) (geo : Option String) (proxy : ApplyProxyOutcome)
    (pt mwPt : Nat) (uf sf : Bool) (bearer : Option BearerInfo)
    (hne : k.api_key.isEmpty = false)
    (hg : (k.api_key == GUEST_API_KEY) = false)
    (hs : (k.api_key == SUPER_ADMIN_API_KEY) = false)
    (hfind : db.apiKeys.find? (fun kk => kk.api_key == k.api_key && kk.is_active) = some k)
    (horg : db.organizations.find? (fun o => o.id == k.organization_id) = some org)
    (hsub : findSubscription db (some k.organization_id) = some sub)
    (hsvc : "vto_makeup" ∈ org.services)
    (hcat : category ∈ VALID_CATEGORIES)
    (hcount : usageCountFor db (some k.organization_id) ≥ sub.api_limit)
    (hk0 : k.organization_id ≠ 0) :
    vto_apply_makeup_request category (some k.api_key) none gm now filename color oid pname
      ua geo proxy pt uf sf bearer method mwPt false db =
    ({ db with usageLogs := db.usageLogs ++
        [⟨some k.organization_id, some k.id, "/api/vto/apply_" ++ category, ⟨none, none, none, none, none, some method⟩, 429, mwPt⟩] },
     .error ⟨429, .str "API rate limit exceeded"⟩) := by
  unfold vto_apply_makeup_request
  rw [apply_quota_429_handler db gm now k org sub category filename color pname ua
    oid geo proxy pt uf sf hne hg hs hfind horg hsub hsvc hcat hcount]
  simp only [responseStatus]
  rw [show usageLoggedAfter db db = false from by unfold usageLoggedAfter; simp]
  rw [log_api_usage_orgkey db ("/api/vto/apply_" ++ category) k bearer 429 mwPt method
    (apply_path_monitored hcat) hne hg hs hfind hk0]

/-- Witness for C1 (amended) at a concrete database: plan limit 3, three
usage rows, service subscribed — the fourth `apply_lipstick` request is
rejected with 429 and the middleware inserts the fourth row with status
429. -/
theorem c1_org_quota_429_with_service_witness :
    vto_apply_makeup_request "lipstick" (some "orgkey-1") none gmeta 0 "f.jpg" "red" none
      "P" "ua" none (.success (some "img")) 5 false false none "POST" 7 false c1wdb =
    ({ c1wdb with usageLogs := c1wdb.usageLogs ++
        [⟨some 1, some 1, "/api/vto/apply_lipstick", ⟨none, none, none, none, none, some "POST"⟩, 429, 7⟩] },
     .error ⟨429, .str "API rate limit exceeded"⟩) :=
  c1_org_quota_429_with_service c1wdb gmeta 0 ⟨1, 1, "orgkey-1", true⟩
    ⟨1, "Acme", some 1, ["vto_makeup"]⟩ ⟨1, 3⟩ "lipstick" "f.jpg" "red" "P" "ua" "POST"
    none none (.success (some "img")) 5 7 false false none
    rfl (by decide) (by decide) rfl rfl rfl (by decide) (by decide) (by decide) (by decide)

/-- Claim C2 (amended): for a guest whose fingerprint resolves to a record
within the window, the call made at `usage_count = GUEST_LIMIT - 1`
increments the counter to `GUEST_LIMIT` but is itself rejected with 429
(so exactly `GUEST_LIMIT - 1` guest calls succeed before rejection), while
a call made with `usage_count + 1` still below the limit succeeds. -/
theorem c2_guest_limit_post_increment
    (db : DB) (gm : GuestRequestMeta) (now : Int) (i : Nat) (g : GuestUsage)
    (filename ua : String) (oid : Option Nat) (geo : Option String) (img : String)
    (pt : Nat) (uf sf : Bool)
    (hfp : findWithIdx (fun x => x.fingerprint_hash == gm.fingerprint_hash) db.guestUsages
      = some (i, g)) :
    (g.usage_count = GUEST_LIMIT - 1 →
      vto_upload (some GUEST_API_KEY) none gm now filename oid "lipstick" ua geo
        (.success (some img)) pt uf sf db =
      ({ db with guestUsages := (db.guestUsages.set i { g with fingerprint_hash := gm.fingerprint_hash, user_agent_hash := gm.user_agent_hash, last_visit := now }).set i { g with fingerprint_hash := gm.fingerprint_hash, user_agent_hash := gm.user_agent_hash, usage_count := GUEST_LIMIT, last_visit := now } },
       .error ⟨429, .str "Guest usage limit reached. Please subscribe to continue."⟩)) ∧
    (g.usage_count + 1 < GUEST_LIMIT →
      vto_upload (some GUEST_API_KEY) none gm now filename oid "lipstick" ua geo
        (.success (some img)) pt uf sf db =
      ({ db with guestUsages := (db.guestUsages.set i { g with fingerprint_hash := gm.fingerprint_hash, user_agent_hash := gm.user_agent_hash, last_visit := now }).set i { g with fingerprint_hash := gm.fingerprint_hash, user_agent_hash := gm.user_agent_hash, usage_count := g.usage_count + 1, last_visit := now } },
       .ok ⟨img⟩)) := by
  have hi : i < db.guestUsages.length :=
    findWithIdx_lt (fun x => x.fingerprint_hash == gm.fingerprint_hash) db.guestUsages i g hfp
  constructor
  · intro h
    have hlt : g.usage_count < GUEST_LIMIT := by rw [h]; decide
    unfold vto_upload
    rw [get_api_key_guest_under db gm now i g hfp hlt]
    simp [increment_guest_usage_if_needed, List.getElem?_set_self (by simpa using hi), h,
      show GUEST_LIMIT - 1 + 1 = GUEST_LIMIT from by decide,
      show ("lipstick" : String) ∈ VALID_CATEGORIES from by decide]
  · intro h
    have hlt : g.usage_count < GUEST_LIMIT := by omega
    unfold vto_upload
    rw [get_api_key_guest_under db gm now i g hfp hlt]
    simp [increment_guest_usage_if_needed, List.getElem?_set_self (by simpa using hi),
      Nat.not_le.mpr h, log_usage, log_tryon_session,
      show ("lipstick" : String) ∈ VALID_CATEGORIES from by decide]

/-- Witness for C2 (amended): a guest record at `GUEST_LIMIT - 1` is
bumped to `GUEST_LIMIT` and this very call is rejected with 429. -/
theorem c2_guest_limit_post_increment_witness :
    vto_upload (some GUEST_API_KEY) none gmeta 100 "f.jpg" none "lipstick" "ua" none
      (.success (some "img")) 5 false false c2db =
    ({ c2db with guestUsages := [⟨"fp0", "1.2.3.4", "ua0", GUEST_LIMIT, 100⟩] },
     .error ⟨429, .str "Guest usage limit reached. Please subscribe to continue."⟩) :=
  (c2_guest_limit_post_increment c2db gmeta 100 0 ⟨"fp0", "1.2.3.4", "ua0", GUEST_LIMIT - 1, 100⟩
    "f.jpg" "ua" none none "img" 5 false false rfl).1 rfl

/-- Claim C4 (amended): when the caller's organization has no subscription
plan attached, `check_access` is never invoked — no fallback limit and no
capability check — so the call proceeds to the proxy and succeeds no matter
how many Usage Events exist and regardless of the `services` list. -/
theorem c4_no_plan_skips_enforcement
    (db : DB) (gm : GuestRequestMeta) (now : Int) (k : ApiKey) (org : Organization)
    (category filename color pname ua : String)
    (oid : Option Nat) (geo : Option String) (img : String) (pt : Nat) (uf sf : Bool)
    (hne : k.api_key.isEmpty = false)
    (hg : (k.api_key == GUEST_API_KEY) = false)
    (hs : (k.api_key == SUPER_ADMIN_API_KEY) = false)
    (hfind : db.apiKeys.find? (fun kk => kk.api_key == k.api_key && kk.is_active) = some k)
    (horg : db.organizations.find? (fun o => o.id == k.organization_id) = some org)
    (hsub : findSubscription db (some k.organization_id) = none)
    (hcat : category ∈ VALID_CATEGORIES)
    (himg : strStartsWith img "data:image" = false) :
    (vto_apply_makeup category (some k.api_key) none gm now filename color oid pname ua geo
      (.success (some img)) pt uf sf db).2 = .ok ⟨img⟩ := by
  unfold vto_apply_makeup
  rw [get_api_key_org db gm now k org hne hg hs hfind horg]
  simp [hcat, hsub, himg]

/-- Witness for C4 (amended): organization with five usage rows, no plan,
no `vto_makeup` tag — the call still succeeds. -/
theorem c4_no_plan_skips_enforcement_witness :
    (vto_apply_makeup "lipstick" (some "orgkey-1") none gmeta 0 "f.jpg" "red" none "P"
      "ua" none (.success (some "img")) 5 false false c4db).2 = .ok ⟨"img"⟩ :=
  c4_no_plan_skips_enforcement c4db gmeta 0 ⟨1, 1, "orgkey-1", true⟩ ⟨1, "Acme", none, []⟩
    "lipstick" "f.jpg" "red" "P" "ua" none none "img" 5 false false
    rfl (by decide) (by decide) rfl rfl rfl (by decide) (by decide)

/-- Claim C6 (amended): for every endpoint outside `VTO_ENDPOINTS`,
`log_usage` records nothing (the Usage Event allow-list holds); Try-on
Sessions, however, are not filtered by the endpoint set (see the
counterexample). -/
theorem c6_usage_event_allowlist
    (db : DB) (endpoint : String) (oid aid : Option Nat) (st : Nat)
    (rd : RequestData) (pt : Nat) (is_super is_guest pf : Bool)
    (hnotin : endpoint ∉ VTO_ENDPOINTS) :
    log_usage db endpoint oid aid st rd pt is_super is_guest pf = db := by
  unfold log_usage
  simp [hnotin]

/-- Witness for C6 (amended) at the endpoint `/x`. -/
theorem c6_usage_event_allowlist_witness :
    log_usage c6db "/x" (some 1) (some 1) 200 ⟨some "f.jpg", none, none, some "P", none, none⟩
      1500 false false false = c6db :=
  c6_usage_event_allowlist c6db "/x" (some 1) (some 1) 200
    ⟨some "f.jpg", none, none, some "P", none, none⟩ 1500 false false false (by decide)

/-- Claim C5 (confirmed): `log_usage` and `log_tryon_session` are no-ops
for SuperAdmin and Guest identities, for any endpoint and any arguments;
moreover a call to the `apply_{category}` handler under the super-admin
credential leaves the whole database unchanged — in particular zero Usage
Event rows and zero Try-on Session rows are inserted. -/
theorem c5_no_records_for_superadmin_or_guest
    (db : DB) (endpoint : String) (oid aid : Option Nat) (st : Nat) (rd : RequestData)
    (pt : Nat) (ua : String) (geo : Option String) (is_super is_guest pf : Bool)
    (gm : GuestRequestMeta) (now : Int) (category filename color pname : String)
    (oid2 : Option Nat) (proxy : ApplyProxyOutcome) (uf sf : Bool)
    (hid : is_super = true ∨ is_guest = true) :
    log_usage db endpoint oid aid st rd pt is_super is_guest pf = db ∧
    log_tryon_session db oid rd pt endpoint ua geo aid is_super is_guest pf = db ∧
    (vto_apply_makeup category (some SUPER_ADMIN_API_KEY) none gm now filename color oid2
        pname ua geo proxy pt uf sf db).1 = db := by
  refine ⟨?_, ?_, ?_⟩
  · unfold log_usage
    rcases hid with h | h <;> simp [h]
  · unfold log_tryon_session
    rcases hid with h | h <;> simp [h]
  · cases hh : db.organizations.head? with
    | none =>
      unfold vto_apply_makeup get_api_key firstCredential
      simp [super_key_not_empty, hh, guest_ne_super]
    | some o =>
      unfold vto_apply_makeup
      rw [get_api_key_super db gm now o hh]
      by_cases hcat : category ∈ VALID_CATEGORIES
      · simp only [hcat, not_true_eq_false, if_false, Bool.not_true, Bool.false_and, if_true]
        cases proxy with
        | badStatus c t => simp
        | success ib =>
          cases ib with
          | none => simp
          | some b => simp [log_usage, log_tryon_session]
      · simp [hcat]

/-- Witness for C5 at concrete super-admin inputs. -/
theorem c5_no_records_for_superadmin_or_guest_witness :
    log_usage c1wdb "/api/vto/upload" (some 1) (some 1) 200
      ⟨some "f.jpg", none, some "lipstick", none, none, none⟩ 5 true false false = c1wdb ∧
    log_tryon_session c1wdb (some 1) ⟨some "f.jpg", none, some "lipstick", none, none, none⟩ 5
      "/api/vto/upload" "ua" none (some 1) true false false = c1wdb ∧
    (vto_apply_makeup "lipstick" (some SUPER_ADMIN_API_KEY) none gmeta 0 "f.jpg" "red"
        none "P" "ua" none (.success (some "img")) 5 false false c1wdb).1 = c1wdb :=
  c5_no_records_for_superadmin_or_guest c1wdb "/api/vto/upload" (some 1) (some 1) 200
    ⟨some "f.jpg", none, some "lipstick", none, none, none⟩ 5 "ua" none true false false
    gmeta 0 "lipstick" "f.jpg" "red" "P" none (.success (some "img")) false false
    (Or.inl rfl)

/-- Handler-level lemma: for an organization key whose organization has no
subscription plan, `vto_apply_makeup` on a failed proxy call raises the
upstream status without recording anything, while `vto_upload` records its
Usage Event row (status 200) before the proxy call and then fails 503 when
the service is unreachable. -/
theorem org_handler_recording_around_proxy
    (db : DB) (gm : GuestRequestMeta) (now : Int) (k : ApiKey) (org : Organization)
    (category filename color pname ua : String) (oid : Option Nat) (geo : Option String)
    (pt : Nat) (uf2 sf : Bool) (c : Nat) (t : String)
    (hne : k.api_key.isEmpty = false)
    (hg : (k.api_key == GUEST_API_KEY) = false)
    (hs : (k.api_key == SUPER_ADMIN_API_KEY) = false)
    (hfind : db.apiKeys.find? (fun kk => kk.api_key == k.api_key && kk.is_active) = some k)
    (horg : db.organizations.find? (fun o => o.id == k.organization_id) = some org)
    (hsub : findSubscription db (some k.organization_id) = none)
    (hcat : category ∈ VALID_CATEGORIES) :
    vto_apply_makeup category (some k.api_key) none gm now filename color oid pname ua geo
      (.badStatus c t) pt uf2 sf db = (db, .error ⟨c, .str t⟩) ∧
    (vto_upload (some k.api_key) none gm now filename oid category ua geo .connectError pt
       false sf db).1.usageLogs
       = db.usageLogs ++ [⟨some k.organization_id, some k.id, "/api/vto/upload", ⟨some filename, none, some category, none, oid, none⟩, 200, pt⟩] ∧
    (vto_upload (some k.api_key) none gm now filename oid category ua geo .connectError pt
       false sf db).2
       = .error ⟨503, .str "Virtual try-on service is not reachable. Please try again later."⟩ := by
  refine ⟨?_, ?_, ?_⟩
  · unfold vto_apply_makeup
    rw [get_api_key_org db gm now k org hne hg hs hfind horg]
    simp [hcat, hsub]
  · unfold vto_upload
    rw [get_api_key_org db gm now k org hne hg hs hfind horg]
    simp [hcat, hsub, tryon_preserves_usageLogs, log_usage,
      show ("/api/vto/upload" : String) ∈ VTO_ENDPOINTS from by decide]
  · unfold vto_upload
    rw [get_api_key_org db gm now k org hne hg hs hfind horg]
    simp [hcat, hsub]

/-- Claim C7 (amended): a failed outbound proxy call still leaves a Usage
Event row for the request.  For `apply_{category}` the handler records only
after a successful proxy call, but on upstream failure the `log_api_usage`
middleware inserts one row carrying the failure status; for `/upload` the
handler itself records the row (status 200) before the proxy call, the
request fails 503, and the middleware — seeing `usage_logged` — adds no
duplicate. -/
theorem c7_failed_proxy_still_recorded
    (db : DB) (gm : GuestRequestMeta) (now : Int) (k : ApiKey) (org : Organization)
    (category filename color pname ua method : String) (oid : Option Nat)
    (geo : Option String) (pt mwPt : Nat) (uf2 sf : Bool) (c : Nat) (t : String)
    (bearer : Option BearerInfo)
    (hne : k.api_key.isEmpty = false)
    (hg : (k.api_key == GUEST_API_KEY) = false)
    (hs : (k.api_key == SUPER_ADMIN_API_KEY) = false)
    (hfind : db.apiKeys.find? (fun kk => kk.api_key == k.api_key && kk.is_active) = some k)
    (horg : db.organizations.find? (fun o => o.id == k.organization_id) = some org)
    (hsub : findSubscription db (some k.organization_id) = none)
    (hcat : category ∈ VALID_CATEGORIES)
    (hk0 : k.organization_id ≠ 0) :
    (vto_apply_makeup_request category (some k.api_key) none gm now filename color oid pname
       ua geo (.badStatus c t) pt uf2 sf bearer method mwPt false db =
     ({ db with usageLogs := db.usageLogs ++
         [⟨some k.organization_id, some k.id, "/api/vto/apply_" ++ category, ⟨none, none, none, none, none, some method⟩, c, mwPt⟩] },
      .error ⟨c, .str t⟩)) ∧
    (vto_upload_request (some k.api_key) none gm now filename oid category ua geo
       .connectError pt false sf bearer method mwPt false db).1.usageLogs
       = db.usageLogs ++ [⟨some k.organization_id, some k.id, "/api/vto/upload", ⟨some filename, none, some category, none, oid, none⟩, 200, pt⟩] ∧
    (vto_upload_request (some k.api_key) none gm now filename oid category ua geo
       .connectError pt false sf bearer method mwPt false db).2
       = .error ⟨503, .str "Virtual try-on service is not reachable. Please try again later."⟩ := by
  have hh := org_handler_recording_around_proxy db gm now k org category filename color
    pname ua oid geo pt uf2 sf c t hne hg hs hfind horg hsub hcat
  have hflag : usageLoggedAfter db (vto_upload (some k.api_key) none gm now filename oid
      category ua geo .connectError pt false sf db).1 = true := by
    unfold usageLoggedAfter
    rw [hh.2.1]
    simp
  refine ⟨?_, ?_, ?_⟩
  · unfold vto_apply_makeup_request
    rw [hh.1]
    simp only [responseStatus]
    rw [show usageLoggedAfter db db = false from by unfold usageLoggedAfter; simp]
    rw [log_api_usage_orgkey db ("/api/vto/apply_" ++ category) k bearer c mwPt method
      (apply_path_monitored hcat) hne hg hs hfind hk0]
  · simp only [vto_upload_request]
    rw [hflag, log_api_usage_skip_logged]
    exact hh.2.1
  · simp only [vto_upload_request]
    exact hh.2.2

/-- Witness for C7 (amended) at `c7db`. -/
theorem c7_failed_proxy_still_recorded_witness :
    (vto_apply_makeup_request "lipstick" (some "orgkey-1") none gmeta 0 "f.jpg" "red" none
       "P" "ua" none (.badStatus 500 "upstream failed") 5 false false none "POST" 7 false
       c7db =
     ({ c7db with usageLogs := c7db.usageLogs ++
         [⟨some 1, some 1, "/api/vto/apply_lipstick", ⟨none, none, none, none, none, some "POST"⟩, 500, 7⟩] },
      .error ⟨500, .str "upstream failed"⟩)) ∧
    (vto_upload_request (some "orgkey-1") none gmeta 0 "f.jpg" none "lipstick" "ua" none
       .connectError 5 false false none "POST" 7 false c7db).1.usageLogs
       = c7db.usageLogs ++ [⟨some 1, some 1, "/api/vto/upload", ⟨some "f.jpg", none, some "lipstick", none, none, none⟩, 200, 5⟩] ∧
    (vto_upload_request (some "orgkey-1") none gmeta 0 "f.jpg" none "lipstick" "ua" none
       .connectError 5 false false none "POST" 7 false c7db).2
       = .error ⟨503, .str "Virtual try-on service is not reachable. Please try again later."⟩ :=
  c7_failed_proxy_still_recorded c7db gmeta 0 ⟨1, 1, "orgkey-1", true⟩
    ⟨1, "Acme", none, ["vto_makeup"]⟩ "lipstick" "f.jpg" "red" "P" "ua" "POST" none none 5
    7 false false 500 "upstream failed" none
    rfl (by decide) (by decide) rfl rfl rfl (by decide) (by decide)

/-- Claim C8 (confirmed): a persistence failure while recording the Usage
Event or the Try-on Session (the recording functions catch the error and
roll back) leaves the status and body of the primary response of both
`vto_upload` and `vto_apply_makeup` exactly as they would have been with
recording succeeding. -/
theorem c8_recording_failure_preserves_response
    (x q : Option String) (gm : GuestRequestMeta) (now : Int)
    (filename category color pname ua : String) (oid : Option Nat) (geo : Option String)
    (uproxy : UploadProxyOutcome) (aproxy : ApplyProxyOutcome) (pt : Nat)
    (uf sf : Bool) (db : DB) :
    (vto_upload x q gm now filename oid category ua geo uproxy pt uf sf db).2 =
      (vto_upload x q gm now filename oid category ua geo uproxy pt false false db).2 ∧
    (vto_apply_makeup category x q gm now filename color oid pname ua geo aproxy pt
        uf sf db).2 =
      (vto_apply_makeup category x q gm now filename color oid pname ua geo aproxy pt
        false false db).2 := by
  constructor
  · unfold vto_upload
    cases hga : get_api_key x q gm now db with
    | mk db1 r =>
      cases r with
      | error e => rfl
      | ok auth =>
        simp only []
        repeat' first
          | rfl
          | split
  · unfold vto_apply_makeup
    cases hga : get_api_key x q gm now db with
    | mk db1 r =>
      cases r with
      | error e => rfl
      | ok auth =>
        simp only []
        repeat' first
          | rfl
          | split

/-- Claim C9 (amended): the guest-quota 429 raised during identity
resolution always carries the structured `usage_count`/`limit`/`reset_time`
body, while the organization-quota 429 raised by `check_access` carries
only the plain string `API rate limit exceeded`. -/
theorem c9_quota_429_detail_structure
    (x q : Option String) (gm : GuestRequestMeta) (now : Int) (dbA db' dbB : DB)
    (e e2 : HTTPError) (oid : Option Nat) (lim : Nat) (svc : String) :
    (get_api_key x q gm now dbA = (db', .error e) → e.status = 429 →
      Detail.hasQuotaFields e.detail = true) ∧
    (check_access dbB oid lim svc false false = .error e2 → e2.status = 429 →
      e2.detail = .str "API rate limit exceeded") := by
  constructor
  · intro h hst
    unfold get_api_key firstCredential get_or_create_guest_usage at h
    repeat' split at h
    all_goals rw [Prod.mk.injEq] at h
    all_goals obtain ⟨h1, h2⟩ := h
    all_goals
      first
        | (simp at h2; done)
        | (injection h2 with h3; subst h3; simp_all [Detail.hasQuotaFields])
  · intro h hst
    unfold check_access at h
    repeat' split at h
    all_goals
      first
        | (simp at h; done)
        | (injection h with h3; subst h3; simp_all)

/-- Witness for C9 (amended): a guest over the limit receives the
structured 429; `check_access` at `api_limit = 0` produces the plain 429. -/
theorem c9_quota_429_detail_structure_witness :
    Detail.hasQuotaFields (Detail.guestQuota
      "Guest usage limit reached. Please subscribe to continue."
      GUEST_LIMIT GUEST_LIMIT 124) = true ∧
    (HTTPError.mk 429 (.str "API rate limit exceeded")).detail
      = .str "API rate limit exceeded" :=
  ⟨(c9_quota_429_detail_structure (some GUEST_API_KEY) none gmeta 100 c9db
      ({ c9db with guestUsages := [⟨"fp0", "1.2.3.4", "ua0", GUEST_LIMIT, 100⟩] }) c9odb
      ⟨429, .guestQuota "Guest usage limit reached. Please subscribe to continue."
        GUEST_LIMIT GUEST_LIMIT 124⟩
      ⟨429, .str "API rate limit exceeded"⟩ (some 1) 0 "vto_makeup").1 rfl rfl,
   (c9_quota_429_detail_structure (some GUEST_API_KEY) none gmeta 100 c9db
      ({ c9db with guestUsages := [⟨"fp0", "1.2.3.4", "ua0", GUEST_LIMIT, 100⟩] }) c9odb
      ⟨429, .guestQuota "Guest usage limit reached. Please subscribe to continue."
        GUEST_LIMIT GUEST_LIMIT 124⟩
      ⟨429, .str "API rate limit exceeded"⟩ (some 1) 0 "vto_makeup").2 rfl rfl⟩

/-- Claim C10 (amended): identity resolution always either returns an auth
object (never simultaneously super-admin and guest) or fails with status
401 (missing/invalid credential), 404 (super-admin key when no
organization exists) or 429 (guest over quota); and the reserved
super-admin constant resolves to a SuperAdmin auth scoped to the first
organization whenever one exists. -/
theorem c10_identity_resolution_taxonomy
    (x q : Option String) (gm : GuestRequestMeta) (now : Int) (db : DB) :
    ((∃ a, (get_api_key x q gm now db).2 = .ok a ∧
        ¬(a.is_super_admin = true ∧ a.is_guest = true)) ∨
     (∃ e, (get_api_key x q gm now db).2 = .error e ∧
        (e.status = 401 ∨ e.status = 404 ∨ e.status = 429))) ∧
    (∀ org, db.organizations.head? = some org →
      get_api_key (some SUPER_ADMIN_API_KEY) none gm now db =
        (db, .ok ⟨SUPER_ADMIN_API_KEY, some org.id, none, true, false, none⟩)) := by
  constructor
  · unfold get_api_key firstCredential get_or_create_guest_usage
    repeat' split
    all_goals
      first
        | (left; exact ⟨_, rfl, by simp⟩)
        | (right; exact ⟨_, rfl, by simp⟩)
  · intro org h
    exact get_api_key_super db gm now org h

/-- Witness for C10 (amended): with one organization present, the reserved
super-admin key resolves to a SuperAdmin auth scoped to it. -/
theorem c10_identity_resolution_taxonomy_witness :
    get_api_key (some SUPER_ADMIN_API_KEY) none gmeta 0 c1db =
      (c1db, .ok ⟨SUPER_ADMIN_API_KEY, some 1, none, true, false, none⟩) :=
  (c10_identity_resolution_taxonomy (some SUPER_ADMIN_API_KEY) none gmeta 0 c1db).2
    ⟨1, "Acme", some 1, []⟩ rfl

end VTO
